import Mathlib

/-!
Verification of the legacy-device control layer of the ai-network-assistant
repository: a shallow embedding, in Lean, of the pure decision logic of
`src/lib/adapters/ptcl.ts` (PTCLRouterAdapter) and
`src/lib/router/session-manager.ts`, together with theorems settling the
specification's claims about it.

Conventions of the embedding:
  * HTTP traffic is made explicit: a fetched page is a `(status, body)`
    pair, and an operation that would POST a form instead returns the
    form it would submit (`Option (List (String × String))`, `none` when
    validation stopped the write before any network submission).
  * JavaScript `parseInt` is modelled by `parseIntJs` (decimal with the
    `0x` prefix autodetection, longest digit prefix, `none` for NaN);
    `x || fallback` on a parse result is `Option.getD` (NaN and 0 both
    collapse to the fallback 0 used in the source).
  * TypeScript string `.length` is modelled by `String.length`; the
    inputs of interest are ASCII, where the two coincide.
-/

/-- First value bound to a key in a form/parameter list (JS object →
`URLSearchParams` keeps one value per key; keys in the embedded forms are
distinct, so first-match lookup is exact). -/
def lookupForm : List (String × String) → String → Option String
  | [], _ => none
  | (k, v) :: rest, key => if k = key then some v else lookupForm rest key

/-- Models JS `String.prototype.toLowerCase` on the ASCII data that flows
through the adapter (MAC addresses: hex digits and colons). -/
def toLowerString (s : String) : String := ⟨s.data.map Char.toLower⟩

/-- Character-list version of `startsWith`, used to model JS
`String.prototype.includes`. -/
def hasPrefixChars : List Char → List Char → Bool
  | [], _ => true
  | _ :: _, [] => false
  | a :: as, b :: bs => a == b && hasPrefixChars as bs

/-- Models JS `String.prototype.includes`: the needle occurs somewhere in
the haystack. -/
def hasSubstringChars (needle : List Char) : List Char → Bool
  | [] => hasPrefixChars needle []
  | b :: bs => hasPrefixChars needle (b :: bs) || hasSubstringChars needle bs

-- ===== JavaScript numeric parsing (parseInt and the `|| 0` fallback) =====

/-- Value of a hexadecimal digit character, `none` for a non-digit. -/
def hexDigitVal (c : Char) : Option Nat :=
  if c.isDigit then some (c.toNat - 48)
  else if 'a' ≤ c ∧ c ≤ 'f' then some (c.toNat - 87)
  else if 'A' ≤ c ∧ c ≤ 'F' then some (c.toNat - 55)
  else none

def isHexDigitChar (c : Char) : Bool := (hexDigitVal c).isSome

/-- Digits (already validated for the base) read most-significant first. -/
def digitsToNatBase (base : Nat) (ds : List Char) : Nat :=
  ds.foldl (fun acc c => acc * base + ((hexDigitVal c).getD 0)) 0

/-- JS `parseInt(s)` with no radix argument: skip leading whitespace, read
an optional sign, autodetect a `0x`/`0X` prefix as hexadecimal, then take
the longest prefix of digits of the detected base; `none` models NaN
(no digit at all). Parsing stops at the first invalid character, which is
how `parseInt("12,345")` yields `12`. -/
def parseIntJs (s : String) : Option Int :=
  let cs := s.data.dropWhile Char.isWhitespace
  let signed : Int × List Char :=
    match cs with
    | '-' :: r => (-1, r)
    | '+' :: r => (1, r)
    | r => (1, r)
  match signed.2 with
  | '0' :: 'x' :: r2 =>
    let ds := r2.takeWhile isHexDigitChar
    if ds.isEmpty then none else some (signed.1 * Int.ofNat (digitsToNatBase 16 ds))
  | '0' :: 'X' :: r2 =>
    let ds := r2.takeWhile isHexDigitChar
    if ds.isEmpty then none else some (signed.1 * Int.ofNat (digitsToNatBase 16 ds))
  | rest =>
    let ds := rest.takeWhile Char.isDigit
    if ds.isEmpty then none else some (signed.1 * Int.ofNat (digitsToNatBase 10 ds))

/-- Models `value.replace(/,/g, '')`. -/
def stripCommas (s : String) : String := ⟨s.data.filter (fun c => c != ',')⟩

/-- A numeric cell of `getWlanStats` (ptcl.ts, `extractValue`):
`parseInt(value.replace(/,/g, '')) || 0`. -/
def extractValueWlan (raw : String) : Int := (parseIntJs (stripCommas raw)).getD 0

/-- A numeric cell of `getAdslStats` (ptcl.ts):
`parseInt(this.extractByLabel($, label).replace(/,/g, '')) || 0`. -/
def adslValueNum (raw : String) : Int := (parseIntJs (stripCommas raw)).getD 0

/-- A numeric cell of `getLanStats` (ptcl.ts): `parseInt(values[i]) || 0` —
note: no comma stripping before the parse. -/
def lanPortValue (raw : String) : Int := (parseIntJs raw).getD 0

-- ===== Page Fetcher (PTCLRouterAdapter.fetchPage) =====

/-- Outcome of one `fetchPage` call. The adapter's axios client is created
with `validateStatus: (status) => status < 500`, so a status of 500 or more
is raised by the client itself (a transport error, like a timeout or
connection failure); `fetchPage` then throws `Error('Session expired')` on
401/403 and otherwise returns the response body. -/
inductive FetchResult where
  | transportError : FetchResult
  | sessionExpired : FetchResult
  | pageData : String → FetchResult
deriving DecidableEq

/-- `PTCLRouterAdapter.fetchPage` on a response with the given status and
body (ptcl.ts lines 45–69). -/
def fetchPage (status : Nat) (body : String) : FetchResult :=
  if 500 ≤ status then FetchResult.transportError
  else if status = 401 ∨ status = 403 then FetchResult.sessionExpired
  else FetchResult.pageData body

/-- `fetchPage` run against a queue of responses the device would serve to
successive requests: the call consumes exactly the first response — whatever
the outcome, the remaining queue is returned untouched, so the operation
issues no further automatic HTTP request (no retry). An empty queue models
a network-level failure (timeout, refused connection), which axios raises
as a transport error. -/
def fetchPageRun (responses : List (Nat × String)) : FetchResult × List (Nat × String) :=
  match responses with
  | [] => (FetchResult.transportError, [])
  | (st, body) :: rest => (fetchPage st body, rest)

-- ===== Session Lifecycle Manager (session-manager.ts) =====

/-- `RouterSession` of session-manager.ts: device address, opaque session
identifier, and the full cookie set. -/
structure RouterSession where
  routerIp : String
  sessionId : String
  cookies : List (String × String)
deriving DecidableEq

/-- `location?.includes('login')` on the probe response's redirect target. -/
def locationIncludesLogin : Option String → Bool
  | some l => hasSubstringChars ("login".data) l.data
  | none => false

/-- `testSessionWithRouter` (session-manager.ts lines 52–82) on the probe
response: `none` models the axios call throwing (network failure; the
`validateStatus` of the probe also raises any status of 500 or more), which
the `catch` turns into `false`. Otherwise: 401/403 invalid, a 3xx redirect
whose `location` contains "login" invalid, then `status === 200`. -/
def testSessionWithRouter (resp : Option (Nat × Option String)) : Bool :=
  match resp with
  | none => false
  | some (status, location) =>
    if 500 ≤ status then false
    else if status = 401 ∨ status = 403 then false
    else if (300 ≤ status ∧ status < 400) ∧ locationIncludesLogin location = true then false
    else decide (status = 200)

/-- `getValidSession` (session-manager.ts lines 214–231), with the probe's
verdict passed in: returns `(session returned to the caller, whether the
stored cookie was cleared)`. A missing stored session returns `null`
without clearing; a stored session failing validation is cleared and
`null` is returned. -/
def getValidSession (stored : Option RouterSession) (valid : Bool) :
    Option RouterSession × Bool :=
  match stored with
  | none => (none, false)
  | some s => if valid then (some s, false) else (none, true)

-- ===== Connected devices: ARP ⋈ DHCP (getConnectedDevices) =====

/-- An entry of `getArpTable` (ptcl.ts). The network device column is
called `iface` here (`interface` in the source record). -/
structure ArpEntry where
  ip : String
  mac : String
  iface : String
deriving DecidableEq

/-- An entry of `getDhcpLeases` (ptcl.ts); also the element type returned
by `getConnectedDevices`. -/
structure DhcpLease where
  hostname : String
  ip : String
  mac : String
  leaseTime : String
deriving DecidableEq

/-- The `macToHostname` map of `getConnectedDevices` (ptcl.ts lines
800–817), built by `dhcpLeases.forEach(lease =>
map.set(lease.mac.toLowerCase(), lease.hostname))`: a later lease with the
same (lowercased) MAC overwrites an earlier one, exactly as `Map.set`
does. -/
def macToHostname (leases : List DhcpLease) : String → Option String :=
  leases.foldl
    (fun m lease => fun k =>
      if k = toLowerString lease.mac then some lease.hostname else m k)
    (fun _ => none)

/-- The last lease in the list whose lowercased MAC equals the key — the
value `macToHostname` resolves to (proved below). -/
def lastMatch : List DhcpLease → String → Option DhcpLease
  | [], _ => none
  | l :: ls, k =>
    match lastMatch ls k with
    | some r => some r
    | none => if k = toLowerString l.mac then some l else none

/-- One output row of `getConnectedDevices` for one ARP entry:
`macToHostname.get(arp.mac.toLowerCase()) || 'Unknown'` (the `||` also
replaces an empty-string hostname, being falsy, by "Unknown"). -/
def connectedDeviceFor (leases : List DhcpLease) (a : ArpEntry) : DhcpLease :=
  { hostname :=
      match macToHostname leases (toLowerString a.mac) with
      | some h => if h = "" then "Unknown" else h
      | none => "Unknown"
    ip := a.ip
    mac := a.mac
    leaseTime := "Active" }

/-- `getConnectedDevices` (ptcl.ts lines 800–817) on already-extracted ARP
and DHCP tables. -/
def getConnectedDevices (arp : List ArpEntry) (leases : List DhcpLease) :
    List DhcpLease :=
  arp.map (connectedDeviceFor leases)

-- ===== WiFi settings: read snapshot, write requests, submitted form =====

/-- `WirelessSettings` as read by `getWirelessSettings` (ptcl.ts lines
531–555): the channel is the selected option's text, a string. -/
structure WirelessSettings where
  ssid : String
  enabled : Bool
  channel : String
  security : String
  hiddenSsid : Bool
deriving DecidableEq

/-- The partial mutation request accepted by `setWifiSettings`. -/
structure WifiOptions where
  ssid : Option String := none
  password : Option String := none
  enabled : Option Bool := none
  channel : Option Int := none
deriving DecidableEq

/-- `{success, message}` returned by every write operation. -/
structure OperationResult where
  success : Bool
  message : String
deriving DecidableEq

/-- The form `setWifiSettings` builds (ptcl.ts lines 836–865), field for
field: `wlan_APenable` is `'0'` only when the request says `enabled:
false`; `ESSID` falls back to the current SSID; `ESSID_HIDE_Selection`
carries the current hidden flag; `Channel_ID` is the requested channel or
the literal `'0'` (the current channel is NOT consulted);
`WEP_Selection` is `currentSettings.security || 'WPA2PSK'`;
`PreSharedKey1` is the requested password or the empty string; the rest
are constants. -/
def buildWifiParams (current : WirelessSettings) (options : WifiOptions) :
    List (String × String) :=
  [("wlan_APenable", if options.enabled = some false then "0" else "1"),
   ("ESSID", options.ssid.getD current.ssid),
   ("ESSID_HIDE_Selection", if current.hiddenSsid then "1" else "0"),
   ("ESSID_Enable_Selection", "1"),
   ("Channel_ID", match options.channel with | some c => toString c | none => "0"),
   ("WirelessMode", "9"),
   ("WEP_Selection", if current.security = "" then "WPA2PSK" else current.security),
   ("PreSharedKey1", options.password.getD ""),
   ("wlanWEPFlag", "3"),
   ("SSID_INDEX", "0"),
   ("Is11nMode", "1"),
   ("BeaconInterval", "100"),
   ("RTSThreshold", "2347"),
   ("FragmentThreshold", "2346"),
   ("DTIM", "1"),
   ("StationNum", "0")]

/-- `setWifiSettings` (ptcl.ts lines 826–884) after the current-settings
read: returns the operation result and the form actually POSTed (`none`
when password validation failed before any write). -/
def setWifiSettings (current : WirelessSettings) (options : WifiOptions) :
    OperationResult × Option (List (String × String)) :=
  let params := buildWifiParams current options
  match options.password with
  | some p =>
    if p.length < 8 then
      ({ success := false, message := "Password must be at least 8 characters" }, none)
    else if p.length > 63 then
      ({ success := false, message := "Password must be at most 63 characters" }, none)
    else
      ({ success := true, message := "WiFi settings updated successfully" }, some params)
  | none =>
    ({ success := true, message := "WiFi settings updated successfully" }, some params)

/-- `setWifiSsid` (ptcl.ts lines 896–901): `!ssid || ssid.length < 1 ||
ssid.length > 32` rejects before delegating to `setWifiSettings`. -/
def setWifiSsid (current : WirelessSettings) (ssid : String) :
    OperationResult × Option (List (String × String)) :=
  if ssid = "" ∨ ssid.length < 1 ∨ ssid.length > 32 then
    ({ success := false, message := "SSID must be between 1 and 32 characters" }, none)
  else setWifiSettings current { ssid := some ssid }

/-- `setWifiChannel` (ptcl.ts lines 913–918): `channel < 0 || channel > 14`
rejects before delegating to `setWifiSettings`. -/
def setWifiChannel (current : WirelessSettings) (channel : Int) :
    OperationResult × Option (List (String × String)) :=
  if channel < 0 ∨ channel > 14 then
    ({ success := false, message := "Channel must be between 0 (auto) and 14" }, none)
  else setWifiSettings current { channel := some channel }

-- ===== QoS rule creation (addQosRule) =====

/-- The options record of `addQosRule` (ptcl.ts lines 1314–1362). The
TypeScript type annotates `priority` as `0 | … | 7`, but that is erased at
runtime; here it is an arbitrary integer, as any JavaScript caller could
pass. -/
structure QosRuleOptions where
  ruleIndex : Option Int := none
  enabled : Option Bool := none
  protocol : Option String := none
  sourceIp : Option String := none
  destIp : Option String := none
  sourcePort : Option Int := none
  destPort : Option Int := none
  priority : Option Int := none
deriving DecidableEq

/-- The form `addQosRule` builds: base fields, then each option appended
under its truthiness test from the source (`if (options.protocol)` etc.;
`options.priority !== undefined` for the priority). `(options.ruleIndex
|| 0)` collapses a missing (or zero) index to 0. -/
def qosParams (o : QosRuleOptions) : List (String × String) :=
  [("QosRuleIndex", toString (o.ruleIndex.getD 0)),
   ("QosRuleActive", if o.enabled = some false then "No" else "Yes"),
   ("QoS_Add", "Add")]
  ++ (match o.protocol with
      | some p => if p = "" then [] else [("QosProtocol", p)]
      | none => [])
  ++ (match o.sourceIp with
      | some s => if s = "" then [] else [("QosSrcIpValue", s)]
      | none => [])
  ++ (match o.destIp with
      | some s => if s = "" then [] else [("QosDestIpValue", s)]
      | none => [])
  ++ (match o.sourcePort with
      | some p => if p = 0 then [] else [("QosSrcPortValue1", toString p)]
      | none => [])
  ++ (match o.destPort with
      | some p => if p = 0 then [] else [("QosDestPortValue1", toString p)]
      | none => [])
  ++ (match o.priority with
      | some p => [("QosIPPValue1", toString p)]
      | none => [])

/-- `addQosRule` (ptcl.ts lines 1314–1362): no validation of any field is
performed; the form is always POSTed and the success result returned
(absent a transport failure). -/
def addQosRule (o : QosRuleOptions) :
    OperationResult × Option (List (String × String)) :=
  ({ success := true, message := "QoS rule added successfully" }, some (qosParams o))

-- ===== Restart (restart) =====

/-- The form `restart` POSTs to `/cgi-bin/tools_system.asp` (ptcl.ts lines
723–736): `restoreFlag: '1'` keeps current settings (the source comments
that `'2'` would mean factory default), `rebootFlag: '1'` triggers the
restart. -/
def restartForm : List (String × String) :=
  [("testFlag", "0"),
   ("restoreFlag", "1"),
   ("rebootFlag", "1"),
   ("RestartBtn", "Restart")]

-- ===== Concurrency model for setWifiSettings (read-merge-submit) =====

/-- Mock device from the spec's test setup: it echoes received form fields
into its state (the fields `getWirelessSettings` would read back). -/
def applySubmit (form : List (String × String)) (d : WirelessSettings) :
    WirelessSettings :=
  { ssid := (lookupForm form "ESSID").getD d.ssid
    enabled := match lookupForm form "wlan_APenable" with
      | some v => v = "1"
      | none => d.enabled
    channel := (lookupForm form "Channel_ID").getD d.channel
    security := (lookupForm form "WEP_Selection").getD d.security
    hiddenSsid := match lookupForm form "ESSID_HIDE_Selection" with
      | some v => v = "1"
      | none => d.hiddenSsid }

/-- The device state after one `setWifiSettings` submit computed from the
current-settings snapshot `cur` the call read earlier: if validation
rejected the request no form is posted and the device is untouched. -/
def submitWith (opts : WifiOptions) (cur : WirelessSettings) (d : WirelessSettings) :
    WirelessSettings :=
  match (setWifiSettings cur opts).2 with
  | some form => applySubmit form d
  | none => d

/-- A step of one of two in-flight `setWifiSettings` calls A and B: its
current-settings read or its form submit. The source contains no lock, so
any interleaving of these steps is possible. -/
inductive WriteStep where
  | readA : WriteStep
  | submitA : WriteStep
  | readB : WriteStep
  | submitB : WriteStep
deriving DecidableEq

/-- Shared device plus each call's captured current-settings snapshot
(`none` until that call's read has run; a submit before its read cannot
happen in the source and is a no-op here). -/
structure ConcState where
  device : WirelessSettings
  curA : Option WirelessSettings := none
  curB : Option WirelessSettings := none

def runStep (optsA optsB : WifiOptions) (s : ConcState) : WriteStep → ConcState
  | WriteStep.readA => { s with curA := some s.device }
  | WriteStep.readB => { s with curB := some s.device }
  | WriteStep.submitA =>
    match s.curA with
    | some cur => { s with device := submitWith optsA cur s.device }
    | none => s
  | WriteStep.submitB =>
    match s.curB with
    | some cur => { s with device := submitWith optsB cur s.device }
    | none => s

/-- Run an interleaving of the two calls' steps against an initial device
state. -/
def runSchedule (optsA optsB : WifiOptions) (steps : List WriteStep)
    (d0 : WirelessSettings) : ConcState :=
  steps.foldl (runStep optsA optsB) { device := d0 }

/-- The device of the spec's end-to-end example: current settings
{ssid: "Home", channel: "6", enabled: true}. -/
def wifiHome : WirelessSettings :=
  { ssid := "Home", enabled := true, channel := "6",
    security := "WPA2PSK", hiddenSsid := false }

/-- The concurrency scenario's first call: set SSID to "A". -/
def optsSetSsidA : WifiOptions := { ssid := some "A" }

/-- The concurrency scenario's second call: set channel to 6. -/
def optsSetChannel6 : WifiOptions := { channel := some 6 }

/-- A QoS rule request whose priority, 8, is outside the documented 0–7
range. -/
def qosPriority8 : QosRuleOptions := { priority := some 8 }

/-- A two-entry ARP table: one MAC with a DHCP lease (differing in case),
one without. -/
def arpSample : List ArpEntry :=
  [{ ip := "192.168.10.7", mac := "A8:6D:AA:12:A3:5E", iface := "br0" },
   { ip := "192.168.10.9", mac := "AA:BB:CC:DD:EE:FF", iface := "br0" }]

/-- The DHCP lease table matching the first ARP entry up to case. -/
def leaseSample : List DhcpLease :=
  [{ hostname := "dell-PC", ip := "192.168.10.7",
     mac := "a8:6d:aa:12:a3:5e", leaseTime := "0 days 15:44:45" }]

-- ===================== Helper lemmas =====================

theorem stripCommas_stripCommas (s : String) :
    stripCommas (stripCommas s) = stripCommas s := by
  cases s with
  | mk data =>
    simp [stripCommas, List.filter_filter]

theorem macToHostname_foldl (leases : List DhcpLease) :
    ∀ (m : String → Option String) (k : String),
      (leases.foldl
        (fun m lease => fun k =>
          if k = toLowerString lease.mac then some lease.hostname else m k)
        m) k
      = match lastMatch leases k with
        | some r => some r.hostname
        | none => m k := by
  induction leases with
  | nil => intro m k; rfl
  | cons l ls ih =>
    intro m k
    rw [List.foldl_cons, ih]
    simp only [lastMatch]
    cases h : lastMatch ls k with
    | some r => simp
    | none =>
      simp only
      split <;> simp

theorem lastMatch_mem :
    ∀ (leases : List DhcpLease) (k : String) (l : DhcpLease),
      lastMatch leases k = some l → l ∈ leases ∧ toLowerString l.mac = k := by
  intro leases
  induction leases with
  | nil => intro k l h; cases h
  | cons x xs ih =>
    intro k l h
    simp only [lastMatch] at h
    cases hx : lastMatch xs k with
    | some r =>
      rw [hx] at h
      simp only [Option.some.injEq] at h
      rw [h] at hx
      exact ⟨List.mem_cons_of_mem _ (ih k l hx).1, (ih k l hx).2⟩
    | none =>
      rw [hx] at h
      split_ifs at h with hc
      · simp only [Option.some.injEq] at h
        rw [← h]
        exact ⟨List.mem_cons_self _ _, hc.symm⟩

theorem lastMatch_none :
    ∀ (leases : List DhcpLease) (k : String),
      lastMatch leases k = none → ∀ l ∈ leases, toLowerString l.mac ≠ k := by
  intro leases
  induction leases with
  | nil => intro k _ l hl; cases hl
  | cons x xs ih =>
    intro k h l hl
    simp only [lastMatch] at h
    cases hx : lastMatch xs k with
    | some r => rw [hx] at h; cases h
    | none =>
      rw [hx] at h
      split_ifs at h with hc
      rcases List.mem_cons.1 hl with rfl | hmem
      · intro he; exact hc he.symm
      · exact ih k hx l hmem

-- ===================== Claim theorems =====================

/-- Claim C1. At the spec's end-to-end example — current settings
{ssid: "Home", channel: "6", enabled: true}, request {ssid: "Guest"} —
`setWifiSettings` submits a form with ssid=Guest and enabled=1, but the
channel field is the literal "0" (automatic), not the device's current
channel "6": the merge carries the current SSID, hidden flag and security
mode, yet hard-codes `Channel_ID` to the requested channel or "0" and
`PreSharedKey1` to the requested password or "", contradicting the
source's own comment that current settings are fetched "to preserve
unchanged values". -/
theorem setWifiSettings_drops_current_channel :
    (setWifiSettings wifiHome { ssid := some "Guest" }).2.map
        (fun f => (lookupForm f "ESSID", lookupForm f "Channel_ID",
          lookupForm f "wlan_APenable", lookupForm f "PreSharedKey1"))
      = some (some "Guest", some "0", some "1", some "") ∧
    wifiHome.channel = "6" ∧ ("0" : String) ≠ "6" := by
  refine ⟨rfl, rfl, by decide⟩

/-- Claim C2, counterexample: `getLanStats` parses its numeric cells with
a bare `parseInt`, so the thousands-separated form "12,345" parses to 12,
not to the 12345 of the separator-free form. -/
theorem lanPortValue_comma_counterexample :
    lanPortValue "12,345" = 12 ∧ lanPortValue "12345" = 12345 ∧
    lanPortValue "12,345" ≠ lanPortValue "12345" := by
  refine ⟨by decide, by decide, by decide⟩

/-- Claim C2, amended: the numeric cells of `getWlanStats` and
`getAdslStats` strip thousands separators before `parseInt`, so there a
comma-bearing string parses as its separator-free form; `getLanStats`
parses with a bare `parseInt` (see the counterexample, "12,345" → 12);
in all three, a parse failure (NaN) falls back to numeric 0 via `|| 0`
rather than to the "N/A" sentinel. -/
theorem numericField_comma_and_fallback :
    (∀ s, extractValueWlan s = extractValueWlan (stripCommas s)) ∧
    (∀ s, adslValueNum s = adslValueNum (stripCommas s)) ∧
    (∀ s, parseIntJs (stripCommas s) = none → extractValueWlan s = 0) ∧
    (∀ s, parseIntJs (stripCommas s) = none → adslValueNum s = 0) ∧
    (∀ s, parseIntJs s = none → lanPortValue s = 0) ∧
    lanPortValue "12,345" = 12 ∧ extractValueWlan "12,345" = 12345 := by
  refine ⟨?_, ?_, ?_, ?_, ?_, by decide, by decide⟩
  · intro s; rw [extractValueWlan, extractValueWlan, stripCommas_stripCommas]
  · intro s; rw [adslValueNum, adslValueNum, stripCommas_stripCommas]
  · intro s h; rw [extractValueWlan, h]; rfl
  · intro s h; rw [adslValueNum, h]; rfl
  · intro s h; rw [lanPortValue, h]; rfl

/-- Claim C2, concrete check of the amended statement: comma-insensitivity
of the wlan extraction and the 0 fallback at NaN inputs. -/
theorem numericField_comma_and_fallback_check :
    extractValueWlan "1,234" = extractValueWlan (stripCommas "1,234") ∧
    extractValueWlan "N/A" = 0 ∧ lanPortValue "N/A" = 0 := by
  exact ⟨numericField_comma_and_fallback.1 "1,234",
    numericField_comma_and_fallback.2.2.1 "N/A" (by decide),
    numericField_comma_and_fallback.2.2.2.2.1 "N/A" (by decide)⟩

/-- Claim C10. The restart form maps restoreFlag to "1" (keep current
settings) and rebootFlag to "1"; the only value ever bound to restoreFlag
is "1", never the factory-default "2". -/
theorem restartForm_flags :
    lookupForm restartForm "restoreFlag" = some "1" ∧
    lookupForm restartForm "rebootFlag" = some "1" ∧
    (restartForm.filter (fun p => p.1 == "restoreFlag")).map Prod.snd = ["1"] ∧
    ("1" : String) ≠ "2" := by
  refine ⟨by decide, by decide, by decide, by decide⟩

/-- Claim C4, counterexample: `addQosRule` called with priority 8 (outside
0–7) does not fail — it returns the success result and POSTs a form whose
QosIPPValue1 is "8". -/
theorem addQosRule_priority8_not_rejected :
    (addQosRule qosPriority8).1.success = true ∧
    (addQosRule qosPriority8).2 = some (qosParams qosPriority8) ∧
    lookupForm (qosParams qosPriority8) "QosIPPValue1" = some "8" := by
  refine ⟨by decide, by decide, by decide⟩

/-- Claim C4, amended: `addQosRule` performs no runtime validation of the
priority — the 0–7 restriction exists only in the erased TypeScript type.
For every integer priority, including -1 and 8, the call serializes the
priority into QosIPPValue1, performs the network write, and returns the
success result. -/
theorem addQosRule_no_priority_validation :
    ∀ p : Int,
      (addQosRule { priority := some p }).1.success = true ∧
      (addQosRule { priority := some p }).2 = some (qosParams { priority := some p }) ∧
      lookupForm (qosParams { priority := some p }) "QosIPPValue1" = some (toString p) := by
  intro p
  refine ⟨rfl, rfl, ?_⟩
  simp [qosParams, lookupForm]

/-- Claim C3. The WiFi write validators reject exactly the out-of-range
boundary inputs: `setWifiSsid` rejects SSID lengths 0 and 33 and accepts 1
and 32 (delegating to `setWifiSettings`, which submits the merged form);
the password check inside `setWifiSettings` rejects lengths 7 and 64 and
accepts 8 and 63; `setWifiChannel` rejects channels -1 and 15 and accepts
0 and 14. Every rejection is a `{success: false}` result with a
human-readable message and no submitted form. -/
theorem wifiValidationBoundaries :
    ∀ (current : WirelessSettings) (s p : String) (c : Int),
      ((s.length = 0 ∨ s.length = 33) →
        setWifiSsid current s =
          ({ success := false, message := "SSID must be between 1 and 32 characters" },
            none)) ∧
      ((s.length = 1 ∨ s.length = 32) →
        setWifiSsid current s =
          ({ success := true, message := "WiFi settings updated successfully" },
            some (buildWifiParams current { ssid := some s }))) ∧
      ((p.length = 7 ∨ p.length = 64) →
        (setWifiSettings current { password := some p }).1.success = false ∧
        (setWifiSettings current { password := some p }).2 = none ∧
        (setWifiSettings current { password := some p }).1.message ≠ "") ∧
      ((p.length = 8 ∨ p.length = 63) →
        setWifiSettings current { password := some p } =
          ({ success := true, message := "WiFi settings updated successfully" },
            some (buildWifiParams current { password := some p }))) ∧
      ((c = -1 ∨ c = 15) →
        setWifiChannel current c =
          ({ success := false, message := "Channel must be between 0 (auto) and 14" },
            none)) ∧
      ((c = 0 ∨ c = 14) →
        setWifiChannel current c =
          ({ success := true, message := "WiFi settings updated successfully" },
            some (buildWifiParams current { channel := some c }))) := by
  intro current s p c
  refine ⟨?_, ?_, ?_, ?_, ?_, ?_⟩
  · rintro (h | h) <;> simp [setWifiSsid, h]
  · rintro (h | h) <;>
      (have hne : ¬s = "" := by
        intro he
        rw [he, String.length_empty] at h
        omega) <;>
      simp [setWifiSsid, hne, h, setWifiSettings]
  · rintro (h | h) <;> simp [setWifiSettings, h]
  · rintro (h | h) <;> simp [setWifiSettings, h]
  · rintro (h | h) <;> simp [setWifiChannel, h]
  · rintro (h | h) <;> simp [setWifiChannel, h, setWifiSettings]

/-- Claim C3, concrete boundary check, at the example device state. -/
theorem wifiValidationBoundaries_check :
    setWifiSsid wifiHome "" =
      ({ success := false, message := "SSID must be between 1 and 32 characters" },
        none) ∧
    setWifiSsid wifiHome "x" =
      ({ success := true, message := "WiFi settings updated successfully" },
        some (buildWifiParams wifiHome { ssid := some "x" })) ∧
    (setWifiSettings wifiHome { password := some "1234567" }).2 = none ∧
    setWifiChannel wifiHome 15 =
      ({ success := false, message := "Channel must be between 0 (auto) and 14" },
        none) ∧
    setWifiChannel wifiHome 0 =
      ({ success := true, message := "WiFi settings updated successfully" },
        some (buildWifiParams wifiHome { channel := some 0 })) := by
  exact ⟨(wifiValidationBoundaries wifiHome "" "p" 0).1 (Or.inl (by decide)),
    (wifiValidationBoundaries wifiHome "x" "p" 0).2.1 (Or.inl (by decide)),
    ((wifiValidationBoundaries wifiHome "" "1234567" 0).2.2.1 (Or.inl (by decide))).2.1,
    (wifiValidationBoundaries wifiHome "" "p" 15).2.2.2.2.1 (Or.inr (by decide)),
    (wifiValidationBoundaries wifiHome "" "p" 0).2.2.2.2.2 (Or.inl (by decide))⟩

/-- Claim C5, counterexample: a page fetch whose response status is 404
returns the response body as page data — it raises neither a transport
error nor a session-expired error. -/
theorem fetchPage_404_returns_body :
    fetchPage 404 "missing" = FetchResult.pageData "missing" ∧
    fetchPage 404 "missing" ≠ FetchResult.transportError ∧
    fetchPage 404 "missing" ≠ FetchResult.sessionExpired := by
  refine ⟨by decide, by decide, by decide⟩

/-- Claim C5, amended: only statuses of 500 and above are raised as
transport errors (by the axios `validateStatus: status < 500` setting);
401/403 raise the distinct session-expired error; every other status —
404 included, and any 3xx once the HTTP client's automatic
redirect-following has run — has its body returned as page data. -/
theorem fetchPage_classification :
    ∀ (status : Nat) (body : String),
      (500 ≤ status → fetchPage status body = FetchResult.transportError) ∧
      ((status = 401 ∨ status = 403) → fetchPage status body = FetchResult.sessionExpired) ∧
      (status < 500 → status ≠ 401 → status ≠ 403 →
        fetchPage status body = FetchResult.pageData body) := by
  intro status body
  refine ⟨?_, ?_, ?_⟩
  · intro h
    rw [fetchPage, if_pos h]
  · rintro (h | h) <;> subst h <;> rfl
  · intro h1 h2 h3
    rw [fetchPage, if_neg (by omega), if_neg (by tauto)]

/-- Claim C5, concrete check of the amended classification. -/
theorem fetchPage_classification_check :
    fetchPage 502 "b" = FetchResult.transportError ∧
    fetchPage 401 "b" = FetchResult.sessionExpired ∧
    fetchPage 404 "b" = FetchResult.pageData "b" := by
  exact ⟨(fetchPage_classification 502 "b").1 (by decide),
    (fetchPage_classification 401 "b").2.1 (Or.inl rfl),
    (fetchPage_classification 404 "b").2.2 (by decide) (by decide) (by decide)⟩

/-- Claim C6. A fetch answered with 401 (or 403) raises the session-expired
error — an error kind distinct from a transport error and from page data —
and the operation consumes exactly that one response: the queue of
responses the device would serve to any further request is returned
untouched, i.e. no automatic retry happens. -/
theorem fetchPage_sessionExpired_no_retry :
    ∀ (body : String) (rest : List (Nat × String)),
      fetchPageRun ((401, body) :: rest) = (FetchResult.sessionExpired, rest) ∧
      fetchPageRun ((403, body) :: rest) = (FetchResult.sessionExpired, rest) ∧
      FetchResult.sessionExpired ≠ FetchResult.transportError ∧
      (∀ b : String, FetchResult.sessionExpired ≠ FetchResult.pageData b) := by
  intro body rest
  refine ⟨rfl, rfl, by decide, fun b h => FetchResult.noConfusion h⟩

/-- Claim C7. The session probe is valid exactly when the response status
is 200: a thrown request, 401/403, any 3xx (with or without a login
redirect target) and every other non-200 status are invalid. When a stored
session fails the probe, `getValidSession` clears it and returns null;
when it passes, the session is returned unchanged; no stored session means
null without clearing. -/
theorem sessionValidation_valid_iff_200 :
    (∀ (status : Nat) (location : Option String),
        testSessionWithRouter (some (status, location)) = true ↔ status = 200) ∧
    testSessionWithRouter none = false ∧
    (∀ s : RouterSession, getValidSession (some s) false = (none, true)) ∧
    (∀ s : RouterSession, getValidSession (some s) true = (some s, false)) ∧
    (∀ v : Bool, getValidSession none v = (none, false)) := by
  refine ⟨?_, rfl, fun s => rfl, fun s => rfl, fun v => rfl⟩
  intro status location
  simp only [testSessionWithRouter]
  split_ifs with h1 h2 h3
  · simp only [Bool.false_eq_true, false_iff]
    omega
  · simp only [Bool.false_eq_true, false_iff]
    omega
  · obtain ⟨⟨h3a, h3b⟩, -⟩ := h3
    simp only [Bool.false_eq_true, false_iff]
    omega
  · simp [decide_eq_true_eq]

/-- Claim C7, concrete check: a 200 probe is valid; a 302 redirect to a
login page is invalid and forces the stored session to be cleared. -/
theorem sessionValidation_valid_iff_200_check :
    testSessionWithRouter (some (200, none)) = true ∧
    testSessionWithRouter (some (302, some "/cgi-bin/login.asp")) ≠ true ∧
    getValidSession
      (some { routerIp := "192.168.10.1", sessionId := "SESSIONID", cookies := [] })
      false = (none, true) := by
  refine ⟨(sessionValidation_valid_iff_200.1 200 none).mpr rfl, ?_, ?_⟩
  · intro h
    have := (sessionValidation_valid_iff_200.1 302 (some "/cgi-bin/login.asp")).mp h
    omega
  · exact sessionValidation_valid_iff_200.2.2.1
      { routerIp := "192.168.10.1", sessionId := "SESSIONID", cookies := [] }

/-- Claim C8. `getConnectedDevices` joins the ARP table with the DHCP
lease hostnames on case-insensitive MAC equality: the result has exactly
one entry per ARP entry (same MAC, same IP, leaseTime "Active"); an ARP
entry with a (case-insensitively) matching lease carries a matching
lease's hostname (the last such lease, as `Map.set` overwrites); one with
no matching lease gets hostname "Unknown". The hypothesis that lease
hostnames are non-empty holds for every list `getDhcpLeases` produces,
since it stores `hostname || 'Unknown'`. -/
theorem getConnectedDevices_join (arp : List ArpEntry) (leases : List DhcpLease)
    (hne : ∀ l ∈ leases, l.hostname ≠ "") :
    (getConnectedDevices arp leases).length = arp.length ∧
    List.Forall₂
      (fun (a : ArpEntry) (d : DhcpLease) =>
        d.mac = a.mac ∧ d.ip = a.ip ∧ d.leaseTime = "Active" ∧
        ((∃ l ∈ leases, toLowerString l.mac = toLowerString a.mac) →
          ∃ l ∈ leases, toLowerString l.mac = toLowerString a.mac ∧
            d.hostname = l.hostname) ∧
        ((∀ l ∈ leases, toLowerString l.mac ≠ toLowerString a.mac) →
          d.hostname = "Unknown"))
      arp (getConnectedDevices arp leases) := by
  constructor
  · simp [getConnectedDevices]
  · rw [getConnectedDevices, List.forall₂_map_right_iff, List.forall₂_same]
    intro a _
    refine ⟨rfl, rfl, rfl, ?_, ?_⟩
    · rintro ⟨l0, hl0, hk0⟩
      cases hmatch : lastMatch leases (toLowerString a.mac) with
      | none => exact absurd hk0 (lastMatch_none leases _ hmatch l0 hl0)
      | some r =>
        obtain ⟨hrmem, hrk⟩ := lastMatch_mem leases _ r hmatch
        refine ⟨r, hrmem, hrk, ?_⟩
        have hm : macToHostname leases (toLowerString a.mac) = some r.hostname := by
          rw [macToHostname, macToHostname_foldl, hmatch]
        simp [connectedDeviceFor, hm, hne r hrmem]
    · intro hnone
      cases hmatch : lastMatch leases (toLowerString a.mac) with
      | some r =>
        obtain ⟨hrmem, hrk⟩ := lastMatch_mem leases _ r hmatch
        exact absurd hrk (hnone r hrmem)
      | none =>
        have hm : macToHostname leases (toLowerString a.mac) = none := by
          rw [macToHostname, macToHostname_foldl, hmatch]
        simp [connectedDeviceFor, hm]

/-- Claim C8, witness: the join applied to a two-entry ARP table and a
one-lease DHCP table whose MAC matches the first ARP entry up to case. -/
theorem getConnectedDevices_join_witness :
    (∀ l ∈ leaseSample, l.hostname ≠ "") ∧
    (getConnectedDevices arpSample leaseSample).length = arpSample.length ∧
    (getConnectedDevices arpSample leaseSample).map (fun d => d.hostname)
      = ["dell-PC", "Unknown"] := by
  exact ⟨by decide, (getConnectedDevices_join arpSample leaseSample (by decide)).1,
    by decide⟩

/-- Claim C9, counterexample: the adapter has no per-session lock, so the
two calls' read-merge-submit steps can interleave. With both
current-settings reads before either submit, the "set channel to 6" call
re-submits the stale SSID "Home" it read: the final device state has the
new channel but the OLD ssid — the "set SSID to A" update is lost,
violating "never just one". -/
theorem lostUpdate_interleaving :
    (runSchedule optsSetSsidA optsSetChannel6
        [WriteStep.readA, WriteStep.readB, WriteStep.submitA, WriteStep.submitB]
        wifiHome).device.ssid = "Home" ∧
    (runSchedule optsSetSsidA optsSetChannel6
        [WriteStep.readA, WriteStep.readB, WriteStep.submitA, WriteStep.submitB]
        wifiHome).device.channel = "6" ∧
    ("Home" : String) ≠ "A" := by
  refine ⟨by decide, by decide, by decide⟩

/-- Claim C9, amended: the source contains no mutual-exclusion scope, and
an unsynchronized interleaving loses the SSID update (see the
counterexample). When the two calls are externally serialized with the
SSID write first and the channel write second, the final device state
carries both the new SSID "A" and the new channel "6", for every initial
device state. (The reverse serialization order loses the channel, because
`setWifiSettings` hard-codes `Channel_ID` to "0" when the request omits
the channel — the C1 defect.) -/
theorem serialized_writes_keep_both :
    ∀ d0 : WirelessSettings,
      (runSchedule optsSetSsidA optsSetChannel6
          [WriteStep.readA, WriteStep.submitA, WriteStep.readB, WriteStep.submitB]
          d0).device.ssid = "A" ∧
      (runSchedule optsSetSsidA optsSetChannel6
          [WriteStep.readA, WriteStep.submitA, WriteStep.readB, WriteStep.submitB]
          d0).device.channel = "6" := by
  intro d0
  constructor <;> rfl
